import Mathlib

/-!
Shallow embedding of `parsl/app/errors.py`: the remote-failure
capture-and-replay machinery (`RemoteExceptionWrapper`, `wrap_error`),
together with the failure taxonomy defined in the same file.

Python exceptions are modelled as finite trees: a kind name (the class
name), a class category (subclass of `Exception`, or `BaseException`-only
such as `KeyboardInterrupt`), a payload (the message/args), the explicit
chained cause (`__cause__`, set by `raise ... from ...`), the implicit
context (`__context__`), an optional traceback, and an object identity
tag `oid` (distinct live objects carry distinct tags; in-place attribute
mutation preserves the tag).
-/

/-- Category of a Python exception class as seen by `except Exception`:
either a subclass of `Exception`, or a `BaseException` that is not an
`Exception` (e.g. `KeyboardInterrupt`, `SystemExit`). -/
inductive ExcClass where
  | exceptionClass
  | baseOnlyClass
deriving DecidableEq, Repr

/-- A Python exception object (`BaseException` instance). `oid` is the
object identity; `kindName` is `type(e).__name__`; `payload` stands for
the message/args; `cause` is `__cause__`; `context` is `__context__`;
`tb` is `__traceback__` (traceback objects are modelled as opaque `Nat`
tokens). -/
inductive PyExc where
  | mk (oid : Nat) (kindName : String) (cls : ExcClass) (payload : String)
       (cause : Option PyExc) (context : Option PyExc) (tb : Option Nat)

def PyExc.oid : PyExc → Nat
  | .mk o _ _ _ _ _ _ => o

def PyExc.kindName : PyExc → String
  | .mk _ k _ _ _ _ _ => k

def PyExc.cls : PyExc → ExcClass
  | .mk _ _ c _ _ _ _ => c

def PyExc.payload : PyExc → String
  | .mk _ _ _ p _ _ _ => p

def PyExc.cause : PyExc → Option PyExc
  | .mk _ _ _ _ c _ _ => c

def PyExc.context : PyExc → Option PyExc
  | .mk _ _ _ _ _ c _ => c

def PyExc.tb : PyExc → Option Nat
  | .mk _ _ _ _ _ _ t => t

/-- In-place assignment `e.__cause__ = c` (identity preserved). -/
def PyExc.setCause : PyExc → Option PyExc → PyExc
  | .mk o k cl p _ ctx t, c => .mk o k cl p c ctx t

/-- In-place `e.with_traceback(tb)`: sets `__traceback__` in place and returns
the same object (identity preserved). -/
def PyExc.withTraceback : PyExc → Option Nat → PyExc
  | .mk o k cl p c ctx _, t => .mk o k cl p c ctx t

/-- The explicit cause chain of an exception, as the list of kind names
from the exception itself down to the innermost cause. -/
def PyExc.chainKinds : PyExc → List String
  | .mk _ k _ _ cause _ _ =>
    k :: (match cause with
          | none => []
          | some c => c.chainKinds)

/-- Length of the explicit cause chain (number of links, the exception
itself included). -/
def PyExc.chainLen (e : PyExc) : Nat := e.chainKinds.length

/-- Model of `tblib.Traceback`: a transportable token built from a traceback
object; `as_traceback` materialises a traceback from it. -/
structure TblibTraceback where
  data : Nat
deriving DecidableEq, Repr

def TblibTraceback.ofTb (t : Nat) : TblibTraceback := ⟨t⟩

def TblibTraceback.as_traceback (t : TblibTraceback) : Nat := t.data

/-- Wrapper state of `RemoteExceptionWrapper`: `e_type` is modelled by the kind name plus
class category of the type object that was passed; `e_value` is the
exception object; `e_traceback` is the `tblib` token (or `None`);
`cause` is the recursively built wrapper for `e_value.__cause__`. -/
inductive RemoteExceptionWrapper where
  | mk (e_type_kind : String) (e_type_cls : ExcClass) (e_value : PyExc)
       (e_traceback : Option TblibTraceback) (cause : Option RemoteExceptionWrapper)

def RemoteExceptionWrapper.e_type_kind : RemoteExceptionWrapper → String
  | .mk k _ _ _ _ => k

def RemoteExceptionWrapper.e_type_cls : RemoteExceptionWrapper → ExcClass
  | .mk _ c _ _ _ => c

def RemoteExceptionWrapper.e_value : RemoteExceptionWrapper → PyExc
  | .mk _ _ v _ _ => v

def RemoteExceptionWrapper.e_traceback : RemoteExceptionWrapper → Option TblibTraceback
  | .mk _ _ _ t _ => t

def RemoteExceptionWrapper.cause : RemoteExceptionWrapper → Option RemoteExceptionWrapper
  | .mk _ _ _ _ c => c

/-- Constructor `RemoteExceptionWrapper.__init__(e_type, e_value, traceback)`:
stores the type, the value, `None if traceback is None else
Traceback(traceback)`, and, when `e_value.__cause__` is not `None`,
recursively wraps the cause via
`self.__class__(type(cause), cause, cause.__traceback__)`. -/
def RemoteExceptionWrapper.init (tk : String) (tc : ExcClass) (e : PyExc)
    (traceback : Option Nat) : RemoteExceptionWrapper :=
  match e with
  | .mk oid k cl p cause ctx tb0 =>
    .mk tk tc (.mk oid k cl p cause ctx tb0)
      (match traceback with
       | none => none
       | some t => some (TblibTraceback.ofTb t))
      (match cause with
       | none => none
       | some c => some (RemoteExceptionWrapper.init c.kindName c.cls c c.tb))

/-- Model of `get_exception`: takes the stored `e_value`, assigns its
`__cause__` in place from the recursively reconstructed cause when one
is present, and, when a traceback token is present, attaches the
materialised traceback via `with_traceback`; the stored object itself is
returned. -/
def RemoteExceptionWrapper.get_exception : RemoteExceptionWrapper → PyExc
  | .mk _ _ v tb cause =>
    let v1 := match cause with
      | none => v
      | some cw => v.setCause (some cw.get_exception)
    match tb with
    | none => v1
    | some t => v1.withTraceback (some t.as_traceback)

/-- Wrapper built from `*sys.exc_info()` inside `wrap_error`:
`sys.exc_info()` at the catch site is `(type(e), e, e.__traceback__)`. -/
def captureOf (e : PyExc) : RemoteExceptionWrapper :=
  RemoteExceptionWrapper.init e.kindName e.cls e e.tb

/-- Model of `reraise`: logs the type, reconstructs the value with
`get_exception`, and unconditionally calls `six.reraise(t, v,
v.__traceback__)`, which raises `v` (its traceback already being the one
passed). Modelled as a computation that either raises (`Except.error`,
carrying the signalled exception) or returns normally (`Except.ok`). -/
def RemoteExceptionWrapper.reraise (w : RemoteExceptionWrapper) :
    Except PyExc Unit :=
  Except.error w.get_exception

/-- Outcome of a call to a function wrapped by `wrap_error`: either the
work unit's normal result, or a `RemoteExceptionWrapper` returned as an
ordinary value. -/
inductive WrapResult (β : Type) where
  | value (b : β)
  | captured (w : RemoteExceptionWrapper)

/-- Observer for the outcome of a call: `true` when the call returned a
value, `false` when an exception propagated out of it. -/
def excIsOk {ε α : Type} : Except ε α → Bool
  | .ok _ => true
  | .error _ => false

/-- Model of `wrap_error(func)`: calls `func`; on normal completion passes the
result through; on an exception caught by `except Exception:` (only
`Exception` subclasses) returns `RemoteExceptionWrapper(*sys.exc_info())`,
i.e. the wrapper built from `(type(e), e, e.__traceback__)`. An
exception outside the `Exception` class (e.g. `KeyboardInterrupt`)
is not caught and propagates. -/
def wrap_error {α β : Type} (func : α → Except PyExc β) (x : α) :
    Except PyExc (WrapResult β) :=
  match func x with
  | .ok r => .ok (.value r)
  | .error e =>
    match e.cls with
    | .exceptionClass => .ok (.captured (captureOf e))
    | .baseOnlyClass => .error e

/-- The failure kinds defined by `parsl/app/errors.py` itself (the
exception classes of the module). All are `Exception` subclasses. -/
def supportedKinds : List String :=
  ["ParslError", "AppException", "AppBadFormatting", "BashExitFailure",
   "AppTimeout", "BashAppNoReturn", "MissingOutputs", "BadStdStreamFile"]

/-- Kind names of the wrapper's cause chain: the stored value's kind
followed by the kinds down the recursively wrapped causes. -/
def RemoteExceptionWrapper.chainKinds : RemoteExceptionWrapper → List String
  | .mk _ _ v _ cause =>
    v.kindName :: (match cause with
                   | none => []
                   | some cw => cw.chainKinds)

def RemoteExceptionWrapper.chainLen (w : RemoteExceptionWrapper) : Nat :=
  w.chainKinds.length

/-! ### Basic facts about the embedded operations -/

theorem PyExc.kindName_setCause (e : PyExc) (c : Option PyExc) :
    (e.setCause c).kindName = e.kindName := by
  cases e
  rfl

theorem PyExc.payload_setCause (e : PyExc) (c : Option PyExc) :
    (e.setCause c).payload = e.payload := by
  cases e
  rfl

theorem PyExc.oid_setCause (e : PyExc) (c : Option PyExc) :
    (e.setCause c).oid = e.oid := by
  cases e
  rfl

theorem PyExc.tb_setCause (e : PyExc) (c : Option PyExc) :
    (e.setCause c).tb = e.tb := by
  cases e
  rfl

theorem PyExc.kindName_withTraceback (e : PyExc) (t : Option Nat) :
    (e.withTraceback t).kindName = e.kindName := by
  cases e
  rfl

theorem PyExc.payload_withTraceback (e : PyExc) (t : Option Nat) :
    (e.withTraceback t).payload = e.payload := by
  cases e
  rfl

theorem PyExc.oid_withTraceback (e : PyExc) (t : Option Nat) :
    (e.withTraceback t).oid = e.oid := by
  cases e
  rfl

theorem PyExc.chainKinds_setCause_some (e x : PyExc) :
    (e.setCause (some x)).chainKinds = e.kindName :: x.chainKinds := by
  cases e
  rfl

theorem PyExc.chainKinds_withTraceback (e : PyExc) (t : Option Nat) :
    (e.withTraceback t).chainKinds = e.chainKinds := by
  obtain ⟨o, k, cl, p, cause, ctx, t0⟩ := e
  cases cause <;> rfl

theorem RemoteExceptionWrapper.init_e_value (tk : String) (tc : ExcClass)
    (e : PyExc) (tb : Option Nat) :
    (RemoteExceptionWrapper.init tk tc e tb).e_value = e := by
  obtain ⟨o, k, cl, p, cause, ctx, t0⟩ := e
  cases cause <;> rfl

theorem RemoteExceptionWrapper.init_e_type_kind (tk : String) (tc : ExcClass)
    (e : PyExc) (tb : Option Nat) :
    (RemoteExceptionWrapper.init tk tc e tb).e_type_kind = tk := by
  obtain ⟨o, k, cl, p, cause, ctx, t0⟩ := e
  cases cause <;> rfl

theorem RemoteExceptionWrapper.init_e_traceback_none (tk : String)
    (tc : ExcClass) (e : PyExc) :
    (RemoteExceptionWrapper.init tk tc e none).e_traceback = none := by
  obtain ⟨o, k, cl, p, cause, ctx, t0⟩ := e
  cases cause <;> rfl

/-- During capture, the wrapper's cause chain mirrors the exception's
cause chain link for link (same kind names, same order). -/
theorem RemoteExceptionWrapper.init_chainKinds (tk : String) (tc : ExcClass)
    (e : PyExc) (tb : Option Nat) :
    (RemoteExceptionWrapper.init tk tc e tb).chainKinds = e.chainKinds := by
  match e with
  | .mk o k cl p none ctx t0 => rfl
  | .mk o k cl p (some c) ctx t0 =>
    have ih : ∀ (tk' : String) (tc' : ExcClass) (tb' : Option Nat),
        (RemoteExceptionWrapper.init tk' tc' c tb').chainKinds = c.chainKinds :=
      fun tk' tc' tb' => RemoteExceptionWrapper.init_chainKinds tk' tc' c tb'
    show (k : String) :: (RemoteExceptionWrapper.init c.kindName c.cls c c.tb).chainKinds
        = k :: c.chainKinds
    rw [ih]

/-- During replay, `get_exception` on a wrapper built by the constructor
rebuilds an exception whose cause chain equals the original's. -/
theorem RemoteExceptionWrapper.get_exception_init_chainKinds (tk : String)
    (tc : ExcClass) (e : PyExc) (tb : Option Nat) :
    (RemoteExceptionWrapper.init tk tc e tb).get_exception.chainKinds
      = e.chainKinds := by
  match e with
  | .mk o k cl p none ctx t0 =>
    cases tb <;>
      simp [RemoteExceptionWrapper.init, RemoteExceptionWrapper.get_exception,
            PyExc.chainKinds, PyExc.chainKinds_withTraceback]
  | .mk o k cl p (some c) ctx t0 =>
    have ih : ∀ (tk' : String) (tc' : ExcClass) (tb' : Option Nat),
        (RemoteExceptionWrapper.init tk' tc' c tb').get_exception.chainKinds
          = c.chainKinds :=
      fun tk' tc' tb' =>
        RemoteExceptionWrapper.get_exception_init_chainKinds tk' tc' c tb'
    cases tb <;>
      simp [RemoteExceptionWrapper.init, RemoteExceptionWrapper.get_exception,
            PyExc.chainKinds, PyExc.chainKinds_withTraceback,
            PyExc.chainKinds_setCause_some, ih]

/-- Replay preserves the kind, payload and identity of the stored value:
`get_exception` only reassigns `__cause__` and `__traceback__`. -/
theorem RemoteExceptionWrapper.get_exception_fields
    (w : RemoteExceptionWrapper) :
    (w.get_exception).kindName = (w.e_value).kindName ∧
    (w.get_exception).payload = (w.e_value).payload ∧
    (w.get_exception).oid = (w.e_value).oid := by
  obtain ⟨tk, tc, v, tb, cause⟩ := w
  cases tb <;> cases cause <;>
    simp [RemoteExceptionWrapper.get_exception, RemoteExceptionWrapper.e_value,
          PyExc.kindName_setCause, PyExc.payload_setCause, PyExc.oid_setCause,
          PyExc.kindName_withTraceback, PyExc.payload_withTraceback,
          PyExc.oid_withTraceback]

/-! ### Example exceptions used by witnesses and counterexamples -/

/-- Example used for C1: a supported-kind failure with a payload and a
traceback. -/
def c1exc : PyExc :=
  .mk 1 "AppTimeout" .exceptionClass "walltime exceeded" none none (some 5)

/-! ### Claim theorems -/

/-- C1: capturing a work unit that raises a supported failure kind with
`wrap_error` returns the captured wrapper, and replaying that wrapper
via `reraise` signals a failure of the same kind whose payload equals
the original payload. -/
theorem wrap_error_capture_reraise_roundtrip {α β : Type}
    (f : α → Except PyExc β) (x : α) (e : PyExc)
    (hf : f x = Except.error e) (hsup : e.kindName ∈ supportedKinds)
    (hcls : e.cls = ExcClass.exceptionClass) :
    wrap_error f x = Except.ok (WrapResult.captured (captureOf e)) ∧
    (captureOf e).reraise = Except.error ((captureOf e).get_exception) ∧
    ((captureOf e).get_exception).kindName = e.kindName ∧
    ((captureOf e).get_exception).payload = e.payload := by
  refine ⟨?_, rfl, ?_, ?_⟩
  · simp [wrap_error, hf, hcls]
  · rw [(RemoteExceptionWrapper.get_exception_fields _).1, captureOf,
        RemoteExceptionWrapper.init_e_value]
  · rw [(RemoteExceptionWrapper.get_exception_fields _).2.1, captureOf,
        RemoteExceptionWrapper.init_e_value]

/-- Closed instance of C1 at a concrete `AppTimeout` failure. -/
theorem wrap_error_capture_reraise_roundtrip_witness :
    wrap_error (fun _ : Unit => (Except.error c1exc : Except PyExc Nat)) ()
      = Except.ok (WrapResult.captured (captureOf c1exc)) ∧
    (captureOf c1exc).reraise
      = Except.error ((captureOf c1exc).get_exception) ∧
    ((captureOf c1exc).get_exception).kindName = c1exc.kindName ∧
    ((captureOf c1exc).get_exception).payload = c1exc.payload :=
  wrap_error_capture_reraise_roundtrip _ () c1exc rfl (by decide) rfl

/-- C2: the wrapper built by capture and the failure rebuilt by replay
both have a cause chain of exactly the same length and the same
per-link kind ordering as the original exception; in particular, for a
three-deep chain the replayed failure's cause's cause has the innermost
kind. -/
theorem capture_replay_chain_preserved (tk : String) (tc : ExcClass)
    (e : PyExc) (tb : Option Nat) :
    (RemoteExceptionWrapper.init tk tc e tb).chainKinds = e.chainKinds ∧
    (RemoteExceptionWrapper.init tk tc e tb).chainLen = e.chainLen ∧
    ((RemoteExceptionWrapper.init tk tc e tb).get_exception).chainKinds
      = e.chainKinds ∧
    ((RemoteExceptionWrapper.init tk tc e tb).get_exception).chainLen
      = e.chainLen := by
  refine ⟨RemoteExceptionWrapper.init_chainKinds tk tc e tb, ?_,
          RemoteExceptionWrapper.get_exception_init_chainKinds tk tc e tb, ?_⟩
  · unfold RemoteExceptionWrapper.chainLen PyExc.chainLen
    rw [RemoteExceptionWrapper.init_chainKinds]
  · unfold PyExc.chainLen
    rw [RemoteExceptionWrapper.get_exception_init_chainKinds]

/-- C6: when no traceback is available (`traceback is None`), the
constructor records `e_traceback = None` and still completes, with the
type, value and cause chain intact. -/
theorem capture_trace_unavailable_records_none (tk : String) (tc : ExcClass)
    (e : PyExc) :
    (RemoteExceptionWrapper.init tk tc e none).e_traceback = none ∧
    (RemoteExceptionWrapper.init tk tc e none).e_type_kind = tk ∧
    (RemoteExceptionWrapper.init tk tc e none).e_value = e ∧
    (RemoteExceptionWrapper.init tk tc e none).chainKinds = e.chainKinds :=
  ⟨RemoteExceptionWrapper.init_e_traceback_none tk tc e,
   RemoteExceptionWrapper.init_e_type_kind tk tc e none,
   RemoteExceptionWrapper.init_e_value tk tc e none,
   RemoteExceptionWrapper.init_chainKinds tk tc e none⟩

/-- C7: `reraise` never returns a value: for every wrapper it raises the
exception rebuilt by `get_exception`, and a wrapper whose traceback
token is `None` replays without failure, signalling a failure that keeps
the stored value's own traceback (no remote trace attached). -/
theorem reraise_always_signals (tk : String) (tc : ExcClass) (v : PyExc)
    (tb : Option TblibTraceback) (cause : Option RemoteExceptionWrapper) :
    (RemoteExceptionWrapper.mk tk tc v tb cause).reraise
      = Except.error
          ((RemoteExceptionWrapper.mk tk tc v tb cause).get_exception) ∧
    excIsOk ((RemoteExceptionWrapper.mk tk tc v tb cause).reraise) = false ∧
    ((RemoteExceptionWrapper.mk tk tc v none cause).get_exception).tb
      = v.tb := by
  refine ⟨rfl, rfl, ?_⟩
  cases cause with
  | none => rfl
  | some cw =>
    show (v.setCause (some cw.get_exception)).tb = v.tb
    exact PyExc.tb_setCause v _

/-- C8: for a work unit that completes normally, the wrapper built by
`wrap_error` passes the result through unchanged. -/
theorem wrap_error_passthrough {α β : Type} (f : α → Except PyExc β)
    (x : α) (r : β) (h : f x = Except.ok r) :
    wrap_error f x = Except.ok (WrapResult.value r) := by
  simp [wrap_error, h]

/-- Closed instance of C8 at a concrete work unit returning `42`. -/
theorem wrap_error_passthrough_witness :
    wrap_error (fun _ : Unit => (Except.ok 42 : Except PyExc Nat)) ()
      = Except.ok (WrapResult.value 42) :=
  wrap_error_passthrough _ () 42 rfl

/-- Example used for C10: an exception with an implicit context
(`__context__`) but no explicit cause (`__cause__`). -/
def c10ctx : PyExc := .mk 31 "ValueError" .exceptionClass "ctx" none none none

def c10exc : PyExc :=
  .mk 30 "AppException" .exceptionClass "outer" none (some c10ctx) none

/-- C10: the constructor mirrors only the explicit `__cause__`; when it
is `None` the wrapper's cause is `None`, whatever the implicit
`__context__` holds. -/
theorem capture_ignores_context (tk : String) (tc : ExcClass) (e : PyExc)
    (tb : Option Nat) (h : e.cause = none) :
    (RemoteExceptionWrapper.init tk tc e tb).cause = none := by
  obtain ⟨o, k, cl, p, cause, ctx, t0⟩ := e
  cases cause with
  | none => rfl
  | some c => exact absurd h (by simp [PyExc.cause])

/-- Closed instance of C10 at an exception carrying a context chain but
no cause. -/
theorem capture_ignores_context_witness :
    (RemoteExceptionWrapper.init "AppException" ExcClass.exceptionClass
      c10exc none).cause = none :=
  capture_ignores_context "AppException" ExcClass.exceptionClass c10exc none rfl

/-! ### C3: what `except Exception` does and does not catch -/

/-- Example used for C3's counterexample: a `BaseException` that is not
an `Exception` (as `KeyboardInterrupt` is in Python). -/
def kiExc : PyExc :=
  .mk 50 "KeyboardInterrupt" .baseOnlyClass "interrupt" none none none

/-- Example used for C3's witness: an ordinary `Exception`-class
failure. -/
def c3exc : PyExc :=
  .mk 51 "ParslError" .exceptionClass "boom" none none (some 9)

/-- C3, counterexample: a work unit raising a failure outside the
`Exception` class is not caught by `wrap_error`'s `except Exception:`;
the failure escapes the capture layer instead of being returned as a
value. -/
theorem wrap_error_base_exception_escapes :
    wrap_error (fun _ : Unit => (Except.error kiExc : Except PyExc Nat)) ()
      = Except.error kiExc ∧
    excIsOk (wrap_error (fun _ : Unit =>
      (Except.error kiExc : Except PyExc Nat)) ()) = false :=
  ⟨rfl, rfl⟩

/-- C3, amended: for every work unit whose failures are all of the
`Exception` class (the category `except Exception:` catches — which
covers every supported failure kind and any payload, since capture does
no serialization), the wrapped call always returns a value, either the
normal result or a captured wrapper. -/
theorem wrap_error_total_for_exception_class {α β : Type}
    (f : α → Except PyExc β) (x : α)
    (h : ∀ e : PyExc, f x = Except.error e → e.cls = ExcClass.exceptionClass) :
    excIsOk (wrap_error f x) = true := by
  cases hfx : f x with
  | ok r => simp [wrap_error, hfx, excIsOk]
  | error e =>
    have hcls := h e hfx
    simp [wrap_error, hfx, hcls, excIsOk]

/-- Closed instance of the amended C3 at a concrete failing work
unit. -/
theorem wrap_error_total_for_exception_class_witness :
    excIsOk (wrap_error (fun _ : Unit =>
      (Except.error c3exc : Except PyExc Nat)) ()) = true :=
  wrap_error_total_for_exception_class _ ()
    (fun e he => by
      have h2 : Except.error (ε := PyExc) (α := Nat) c3exc
          = Except.error e := he
      injection h2 with h3
      rw [← h3]
      rfl)

/-! ### C4: no depth cap, no truncation marker -/

/-- A deliberately deep cause chain: `mkChain n` is an exception with a
cause chain of `n + 1` links, every link a `ParslError`. -/
def mkChain : Nat → PyExc
  | 0 => .mk 1000 "ParslError" .exceptionClass "link" none none none
  | n + 1 =>
    .mk (1001 + n) "ParslError" .exceptionClass "link"
      (some (mkChain n)) none none

theorem mkChain_chainKinds (n : Nat) :
    (mkChain n).chainKinds = List.replicate (n + 1) "ParslError" := by
  induction n with
  | zero => rfl
  | succ m ih => simp [mkChain, PyExc.chainKinds, ih, List.replicate_succ]

/-- C4, counterexample: capturing a chain of depth 1000 mirrors all
1000 links; nothing is truncated at any cap and no link carries a
"cause chain truncated" marker. -/
theorem capture_depth_1000_not_truncated :
    (RemoteExceptionWrapper.init "ParslError" ExcClass.exceptionClass
        (mkChain 999) none).chainLen = 1000 ∧
    "cause chain truncated" ∉
      (RemoteExceptionWrapper.init "ParslError" ExcClass.exceptionClass
        (mkChain 999) none).chainKinds := by
  constructor
  · unfold RemoteExceptionWrapper.chainLen
    rw [RemoteExceptionWrapper.init_chainKinds, mkChain_chainKinds,
        List.length_replicate]
  · rw [RemoteExceptionWrapper.init_chainKinds, mkChain_chainKinds]
    intro hmem
    exact absurd (List.mem_replicate.mp hmem).2 (by decide)

/-- C4, amended: the constructor's recursion over chained causes
terminates on every cause chain (chains are finite and acyclic, and
each recursive step descends to the strictly smaller cause), and it does
so without any depth cap: the captured chain always has exactly the
original length — a depth-1000 chain included — with no truncation
marker. -/
theorem capture_mirrors_full_chain (tk : String) (tc : ExcClass)
    (e : PyExc) (tb : Option Nat) :
    (RemoteExceptionWrapper.init tk tc e tb).chainLen = e.chainLen ∧
    (RemoteExceptionWrapper.init tk tc e tb).chainKinds = e.chainKinds := by
  refine ⟨?_, RemoteExceptionWrapper.init_chainKinds tk tc e tb⟩
  unfold RemoteExceptionWrapper.chainLen PyExc.chainLen
  rw [RemoteExceptionWrapper.init_chainKinds]

/-! ### C5: no resolution step, no fallback type -/

/-- Example used for C5: a failure whose kind name matches no failure
type defined by the module. -/
def c5exc : PyExc :=
  .mk 40 "CompletelyUnknownKind" .exceptionClass "weird payload"
    none none none

/-- C5, counterexample: replaying a wrapper whose kind is unknown to
the local failure taxonomy does not signal any generic
`UnknownRemoteFailure`: it re-raises the stored exception itself, with
its original unknown kind. No `UnknownRemoteFailure` type exists in the
module at all. -/
theorem reraise_unknown_kind_no_fallback :
    "CompletelyUnknownKind" ∉ supportedKinds ∧
    (captureOf c5exc).reraise = Except.error c5exc ∧
    c5exc.kindName ≠ "UnknownRemoteFailure" :=
  ⟨by decide, rfl, by decide⟩

/-- C5, amended: replay never fails on a kind that is unknown to the
local taxonomy, but not by substituting a fallback: the wrapper carries
the concrete type itself, there is no resolution step, and `reraise`
signals the stored value with its original kind unchanged. -/
theorem reraise_preserves_unresolvable_kind (tk : String) (tc : ExcClass)
    (e : PyExc) (tb : Option Nat) (h : e.kindName ∉ supportedKinds) :
    (RemoteExceptionWrapper.init tk tc e tb).reraise
      = Except.error ((RemoteExceptionWrapper.init tk tc e tb).get_exception) ∧
    ((RemoteExceptionWrapper.init tk tc e tb).get_exception).kindName
      = e.kindName := by
  refine ⟨rfl, ?_⟩
  rw [(RemoteExceptionWrapper.get_exception_fields _).1,
      RemoteExceptionWrapper.init_e_value]

/-- Closed instance of the amended C5 at the unknown-kind failure. -/
theorem reraise_preserves_unresolvable_kind_witness :
    (captureOf c5exc).reraise
      = Except.error ((captureOf c5exc).get_exception) ∧
    ((captureOf c5exc).get_exception).kindName = c5exc.kindName :=
  reraise_preserves_unresolvable_kind c5exc.kindName c5exc.cls c5exc c5exc.tb
    (by decide)

/-! ### C9: replay returns the stored object, not a fresh one -/

/-- Example used for C9: an exception with a cause and a traceback. -/
def c9cause : PyExc := .mk 21 "ParslError" .exceptionClass "inner" none none none

def c9exc : PyExc :=
  .mk 20 "AppException" .exceptionClass "outer" (some c9cause) none (some 7)

/-- C9, counterexample: the exception signalled by replay carries the
very identity of the object stored in the wrapper (`oid = 20`), so it is
the same object, not a fresh value: `get_exception` returns
`self.e_value` itself after assigning its `__cause__` and
`__traceback__` in place. -/
theorem replay_same_object_counterexample :
    ((captureOf c9exc).get_exception).oid = 20 ∧
    ((captureOf c9exc).e_value).oid = 20 ∧
    c9exc.oid = 20 :=
  ⟨rfl, rfl, rfl⟩

/-- C9, amended: the wrapper's own fields are never reassigned after
construction, but the failure signalled by replay is not a fresh value:
for every wrapper, the exception returned by `get_exception` has the
same object identity as the stored `e_value` — the stored object itself,
mutated in place. -/
theorem replay_returns_stored_object_identity (w : RemoteExceptionWrapper) :
    ((w.get_exception)).oid = (w.e_value).oid :=
  (RemoteExceptionWrapper.get_exception_fields w).2.2
